import Mathlib

/-!
# Verification of the todo-backend intent-resolution core

Shallow embedding of the task store (src/services/crud.py), the chat agent
(src/agent.py) and the REST and chat endpoints (src/api/tasks.py,
src/api/chat.py) of the repository, together with theorems settling the
frozen claims about the natural-language specification.

Datetime values are modelled as natural-number instants; each database
operation receives the instant at which it runs.  External datetime
rendering (strftime) is modelled as a function parameter.  The external
language-model call is modelled as an optional result: absent when the
model is unconfigured, an error value when the call raises.
-/

namespace TodoBackend

/-! ## Python string primitives

The agent manipulates Python strings with str.strip, str.lower, str.upper,
substring tests, str.replace, str.split and regular expressions limited to
digit runs and whole-word removal.  These are embedded here on character
lists so that every definition evaluates inside the kernel. -/

/-- Python whitespace characters recognised by str.strip and regex backslash-s. -/
def pyIsSpace (c : Char) : Bool :=
  c == ' ' || c == '\t' || c == '\n' || c == '\r' || c == Char.ofNat 11 || c == Char.ofNat 12

/-- Drop characters satisfying a predicate from both ends of a list. -/
def stripList (p : Char → Bool) (cs : List Char) : List Char :=
  ((cs.dropWhile p).reverse.dropWhile p).reverse

/-- Python str.strip with no argument: trim whitespace from both ends. -/
def pyStrip (s : String) : String := ⟨stripList pyIsSpace s.data⟩

/-- Python str.strip with a single character argument. -/
def pyStripChar (c : Char) (s : String) : String := ⟨stripList (· == c) s.data⟩

/-- Python str.lower restricted to ASCII, which covers every keyword the agent uses. -/
def pyLower (s : String) : String := ⟨s.data.map Char.toLower⟩

/-- Python str.upper restricted to ASCII. -/
def pyUpper (s : String) : String := ⟨s.data.map Char.toUpper⟩

/-- Containment of one character list in another, as in the Python in operator. -/
def listContainsSub (sub : List Char) : List Char → Bool
  | [] => sub.isEmpty
  | c :: rest => sub.isPrefixOf (c :: rest) || listContainsSub sub rest

/-- Python substring test: sub in s. -/
def strContains (s sub : String) : Bool := listContainsSub sub.data s.data

/-- Python str.startswith. -/
def strStarts (s pat : String) : Bool := pat.data.isPrefixOf s.data

/-- The suffix after the first occurrence of sep, or none when sep is absent.
Models s.split(sep, 1) followed by taking index 1, which raises IndexError
when the separator does not occur. -/
def splitAfterFirst (sep : List Char) : List Char → Option (List Char)
  | [] => if sep.isPrefixOf [] then some [] else none
  | c :: rest =>
    if sep.isPrefixOf (c :: rest) then some ((c :: rest).drop sep.length)
    else splitAfterFirst sep rest

/-- Remove every occurrence of pat, scanning left to right: Python s.replace(pat, empty).
The fuel argument is the length of the scanned list, which never runs out. -/
def removeAllAux (pat : List Char) : Nat → List Char → List Char
  | 0, s => s
  | _ + 1, [] => []
  | fuel + 1, c :: rest =>
    if !pat.isEmpty && pat.isPrefixOf (c :: rest) then
      removeAllAux pat fuel ((c :: rest).drop pat.length)
    else c :: removeAllAux pat fuel rest

/-- Python s.replace(pat, empty string). -/
def pyRemoveAll (pat : String) (s : String) : String :=
  ⟨removeAllAux pat.data s.data.length s.data⟩

/-- Python s.split on a newline: used on the model response. -/
def splitLinesAux (acc : List Char) : List Char → List String
  | [] => [⟨acc.reverse⟩]
  | c :: rest =>
    if c == '\n' then (⟨acc.reverse⟩ : String) :: splitLinesAux [] rest
    else splitLinesAux (c :: acc) rest

/-- Python s.split with a newline separator. -/
def splitLines (s : String) : List String := splitLinesAux [] s.data

/-- First maximal run of decimal digits: re.findall digits, first element. -/
def firstDigitRunAux : List Char → Option (List Char)
  | [] => none
  | c :: rest =>
    if c.isDigit then some (c :: rest.takeWhile Char.isDigit)
    else firstDigitRunAux rest

/-- First run of digits of a string, as a string. -/
def firstDigitRun (s : String) : Option String := (firstDigitRunAux s.data).map (⟨·⟩)

/-- Decimal value of a digit string. -/
def digitsToNat (s : String) : Nat := s.data.foldl (fun a c => a * 10 + (c.toNat - 48)) 0

/-- Python int() on a string, restricted to unsigned decimals as the endpoints use it. -/
def pyInt (s : String) : Option Nat :=
  let t := pyStrip s
  if !t.data.isEmpty && t.data.all Char.isDigit then some (digitsToNat t) else none

/-- Regex word character (ASCII part of backslash-w). -/
def isWordChar (c : Char) : Bool := c.isAlphanum || c == '_'

/-- Case-insensitive match of a word at the head of a list. -/
def matchesWordAt : List Char → List Char → Bool
  | [], _ => true
  | _ :: _, [] => false
  | a :: ws, b :: ss => (a.toLower == b.toLower) && matchesWordAt ws ss

/-- Whether the character after a match of w is a word boundary. -/
def boundaryAfter (w s : List Char) : Bool :=
  match s.drop w.length with
  | [] => true
  | c :: _ => !isWordChar c

/-- Remove every whole-word occurrence of w, case-insensitively: Python
re.sub of a word-boundary pattern.  prevWord records whether the previous
source character is a word character; wLast stands for the last character
of w, which becomes the previous character after a removal.  Fuel is the
length of the scanned list. -/
def removeWordAux (w : List Char) (wLast : Char) : Nat → Bool → List Char → List Char
  | 0, _, s => s
  | _ + 1, _, [] => []
  | fuel + 1, prevWord, c :: rest =>
    if !prevWord && matchesWordAt w (c :: rest) && boundaryAfter w (c :: rest) then
      removeWordAux w wLast fuel (isWordChar wLast) (rest.drop (w.length - 1))
    else c :: removeWordAux w wLast fuel (isWordChar c) rest

/-- Python re.sub of a whole-word pattern by the empty string, ignoring case. -/
def removeWord (word : String) (s : String) : String :=
  match word.data with
  | [] => s
  | w => ⟨removeWordAux w (w.getLastD ' ') s.data.length false s.data⟩

/-- Index of the first occurrence of pat in s, if any. -/
def findSubIdx (pat : List Char) : List Char → Nat → Option Nat
  | [], i => if pat.isPrefixOf [] then some i else none
  | c :: rest, i =>
    if pat.isPrefixOf (c :: rest) then some i else findSubIdx pat rest (i + 1)

/-- Python re.sub of the pattern dot-star-nongreedy, the digit run, backslash-s-star
by the empty string with count one: removes the shortest leftmost stretch ending at
the first occurrence of the digit run, plus trailing whitespace.  The nongreedy
dot cannot cross a newline, so the removed stretch starts after the last newline
preceding the occurrence. -/
def subAfterIdRun (pat s : List Char) : List Char :=
  match findSubIdx pat s 0 with
  | none => s
  | some p =>
    let keep := ((s.take p).reverse.dropWhile (fun c => c != '\n')).reverse
    keep ++ (s.drop (p + pat.length)).dropWhile pyIsSpace

/-! ## Data model (src/models/init, the table used by src/services/crud.py) -/

/-- A task row: integer identifier, owner, title, optional description,
completion flag, and the three timestamps. -/
structure Task where
  id : Nat
  user_id : String
  title : String
  description : Option String
  completed : Bool
  created_at : Option Nat
  updated_at : Option Nat
  completed_at : Option Nat
deriving Repr, DecidableEq

/-- Payload of task creation (schema TaskCreate). -/
structure TaskCreate where
  title : String
  description : Option String
  completed : Bool
deriving Repr, DecidableEq

/-- Partial payload of task update (schema TaskUpdate, as imported by the agent
from src.schemas.tasks: no field carries a length constraint). -/
structure TaskUpdate where
  title : Option String
  description : Option String
  completed : Option Bool
deriving Repr, DecidableEq

/-- The task table plus the autoincrement counter of the primary key. -/
structure TaskStore where
  tasks : List Task
  next_id : Nat
deriving Repr, DecidableEq

/-! ## Task store operations (src/services/crud.py) -/

/-- The where-clause of every single-task query: id equals task_id and
user_id equals the caller. -/
def taskMatches (user_id : String) (task_id : Nat) (t : Task) : Bool :=
  t.id == task_id && t.user_id == user_id

/-- scalar_one_or_none over the owner-scoped query. -/
def findTask (tasks : List Task) (user_id : String) (task_id : Nat) : Option Task :=
  tasks.find? (taskMatches user_id task_id)

/-- Write back the mutated row selected by the owner-scoped query:
replaces the first matching row. -/
def saveTask (user_id : String) (task_id : Nat) (t : Task) : List Task → List Task
  | [] => []
  | u :: rest =>
    if taskMatches user_id task_id u then t :: rest
    else u :: saveTask user_id task_id t rest

/-- crud.create_task: insert a fresh row with server-assigned id and timestamps. -/
def create_task (now : Nat) (store : TaskStore) (user_id : String) (task_data : TaskCreate) :
    Task × TaskStore :=
  let task : Task :=
    { id := store.next_id, user_id := user_id, title := task_data.title,
               description := task_data.description, completed := task_data.completed,
               created_at := some now, updated_at := some now, completed_at := none }
  (task, { tasks := store.tasks ++ [task], next_id := store.next_id + 1 })

/-- crud.get_tasks: all rows of the owner, optionally filtered by status. -/
def get_tasks (tasks : List Task) (user_id : String) (status : String) : List Task :=
  let q := tasks.filter (fun t => t.user_id == user_id)
  if status == "pending" then q.filter (fun t => t.completed == false)
  else if status == "completed" then q.filter (fun t => t.completed == true)
  else q

/-- crud.get_task: the owner-scoped single-row lookup. -/
def get_task (tasks : List Task) (user_id : String) (task_id : Nat) : Option Task :=
  findTask tasks user_id task_id

/-- crud.update_task, statement by statement.  The completed flag is assigned
to the row before the transition test reads it back, exactly as in the source:
the test task_data.completed and not task.completed therefore sees the new
value of task.completed. -/
def update_task (now : Nat) (tasks : List Task) (user_id : String) (task_id : Nat)
    (task_data : TaskUpdate) : Option Task × List Task :=
  match findTask tasks user_id task_id with
  | none => (none, tasks)
  | some task0 =>
    let task1 := match task_data.title with
      | some t => { task0 with title := t }
      | none => task0
    let task2 := match task_data.description with
      | some d => { task1 with description := some d }
      | none => task1
    let task3 := match task_data.completed with
      | none => task2
      | some c =>
        let assigned := { task2 with completed := c }
        if c && !assigned.completed then { assigned with completed_at := some now }
        else if !c then { assigned with completed_at := none }
        else assigned
    let task4 := { task3 with updated_at := some now }
    (some task4, saveTask user_id task_id task4 tasks)

/-- crud.delete_task: hard delete of the owner-scoped row. -/
def delete_task (tasks : List Task) (user_id : String) (task_id : Nat) :
    Bool × List Task :=
  match findTask tasks user_id task_id with
  | none => (false, tasks)
  | some _ => (true, tasks.eraseP (taskMatches user_id task_id))

/-- crud.complete_task: set the flag, stamp or clear completed_at, refresh updated_at. -/
def complete_task (now : Nat) (tasks : List Task) (user_id : String) (task_id : Nat)
    (completed : Bool) : Option Task × List Task :=
  match findTask tasks user_id task_id with
  | none => (none, tasks)
  | some task0 =>
    let task1 := { task0 with
                     completed := completed,
                     completed_at := if completed then some now else none,
                     updated_at := some now }
    (some task1, saveTask user_id task_id task1 tasks)

/-! ## Intent parser (src/agent.py)

Python exceptions that can escape a function are modelled with Except: the
error value carries the exception rendering. -/

/-- The keyword table of parse_intent_line, in declaration order. -/
def intent_mapping : List (String × String) :=
  [("ADD", "add_task"), ("LIST", "list_tasks"), ("SHOW", "list_tasks"),
   ("GET", "list_tasks"), ("COMPLETE", "complete_task"), ("MARK", "complete_task"),
   ("DELETE", "delete_task"), ("REMOVE", "delete_task"), ("UPDATE", "update_task"),
   ("EDIT", "update_task"), ("MODIFY", "update_task")]

/-- The mutable result dictionary of extract_intent_and_params. -/
structure ParsedIntent where
  intent : String
  task_title : String
  task_id : Option Nat
  paramDescription : Option String
  paramCompleted : Option Bool
deriving Repr, DecidableEq

/-- The initial result dictionary: intent unknown, empty title, no id, no params. -/
def emptyParsed : ParsedIntent :=
  { intent := "unknown", task_title := "", task_id := none,
    paramDescription := none, paramCompleted := none }

/-- agent parse_intent_line: dispatch on the line prefix and update the result. -/
def parse_intent_line (line : String) (r : ParsedIntent) : ParsedIntent :=
  let line := pyStrip line
  if strStarts line "INTENT:" then
    let intent_str := pyUpper (pyStrip (pyRemoveAll "INTENT:" line))
    match intent_mapping.find? (fun kv => strContains intent_str kv.fst) with
    | some kv => { r with intent := kv.snd }
    | none => r
  else if strStarts line "TITLE:" then
    { r with task_title := pyStrip (pyRemoveAll "TITLE:" line) }
  else if strStarts line "TASK_ID:" then
    match firstDigitRun (pyStrip (pyRemoveAll "TASK_ID:" line)) with
    | some ds => { r with task_id := some (digitsToNat ds) }
    | none => r
  else if strStarts line "DESCRIPTION:" then
    { r with paramDescription := some (pyStrip (pyRemoveAll "DESCRIPTION:" line)) }
  else if strStarts line "COMPLETED:" then
    let cs := pyLower (pyStrip (pyRemoveAll "COMPLETED:" line))
    { r with paramCompleted := some (cs == "true" || cs == "yes" || cs == "1") }
  else r

/-- agent extract_intent_and_params: fold parse_intent_line over the lines. -/
def extract_intent_and_params (resp : String) : ParsedIntent :=
  (splitLines (pyStrip resp)).foldl (fun r l => parse_intent_line l r) emptyParsed

/-- agent extract_update_title.  When the lower-cased message contains the
separator but the raw message does not (mixed-case To), the Python index [1]
raises IndexError; the error value records this. -/
def extract_update_title (message message_lower : String) (task_id : String) :
    Except String String :=
  if strContains message_lower " to " then
    match splitAfterFirst " to ".data message.data with
    | some rest => Except.ok (pyStrip ⟨rest⟩)
    | none => Except.error "IndexError: list index out of range"
  else if task_id != "" then
    Except.ok (pyStrip ⟨subAfterIdRun task_id.data message.data⟩)
  else Except.ok ""

/-- agent detect_update_intent. -/
def detect_update_intent (message_lower message : String) : Except String String :=
  let task_id := (firstDigitRun message).getD ""
  (extract_update_title message message_lower task_id).map (fun title =>
    "INTENT: UPDATE\nTASK_ID: " ++ task_id ++ "\nTITLE: " ++ title)

/-- agent detect_complete_intent. -/
def detect_complete_intent (message : String) : String :=
  "INTENT: COMPLETE\nTASK_ID: " ++ (firstDigitRun message).getD ""

/-- agent detect_delete_intent. -/
def detect_delete_intent (message : String) : String :=
  "INTENT: DELETE\nTASK_ID: " ++ (firstDigitRun message).getD ""

/-- Python s.strip of double quotes, then single quotes, then whitespace. -/
def stripQuotes (s : String) : String :=
  pyStrip (pyStripChar (Char.ofNat 39) (pyStripChar '"' s))

/-- agent detect_add_intent: remove the command keywords as whole words, but
take everything after the separator when the lower-cased message contains it;
the same mixed-case To split raises IndexError. -/
def detect_add_intent (message message_lower : String) : Except String String :=
  let title := ["add", "create", "new", "remember", "task", "a"].foldl
    (fun acc w => removeWord w acc) message
  if strContains message_lower " to " then
    match splitAfterFirst " to ".data message.data with
    | some rest =>
      Except.ok ("INTENT: ADD\nTITLE: " ++ stripQuotes (pyStrip ⟨rest⟩))
    | none => Except.error "IndexError: list index out of range"
  else Except.ok ("INTENT: ADD\nTITLE: " ++ stripQuotes (pyStrip title))

/-- agent fallback_intent: the deterministic keyword cascade in source order. -/
def fallback_intent (message : String) : Except String String :=
  let ml := pyLower message
  if ["update", "change", "edit", "modify"].any (fun w => strContains ml w) then
    detect_update_intent ml message
  else if ["complete", "done", "finish", "mark"].any (fun w => strContains ml w) then
    Except.ok (detect_complete_intent message)
  else if ["get rid of", "get rid", "delete", "remove", "cancel", "erase",
      "trash", "discard"].any (fun w => strContains ml w) then
    Except.ok (detect_delete_intent message)
  else if ["add", "create", "new", "remember"].any (fun w => strContains ml w) then
    detect_add_intent message ml
  else if ["list", "show", "what", "display", "all", "tasks"].any
      (fun w => strContains ml w) then
    Except.ok "INTENT: LIST"
  else Except.ok "INTENT: UNKNOWN"

/-- agent get_gemini_intent.  The model argument is none when the model is
unconfigured, some ok when the external call returns text, and some error when
the external call raises; in the latter case the except-block silently runs
the fallback. -/
def get_gemini_intent (model : Option (Except String String)) (message : String) :
    Except String String :=
  match model with
  | none => fallback_intent message
  | some (Except.ok response) => Except.ok response
  | some (Except.error _) => fallback_intent message

/-- The first two stages of process_message with the model unavailable:
fallback intent text, then line parsing. -/
def parse_message_fallback (message : String) : Except String ParsedIntent :=
  (get_gemini_intent none message).map extract_intent_and_params

/-! ## Command executor (the handler methods of src/agent.py)

The strftime renderings of datetimes are external library calls and appear
as function parameters fmtLong (month day year bullet hour minute) and
fmtShort (month day year). -/

def msg_add_clarify : String :=
  "I need to know what task you want to add. Please specify a task title."

def msg_complete_clarify : String :=
  "Please specify which task to mark as complete (e.g., \x27mark task 3 as complete\x27)"

def msg_delete_clarify : String :=
  "Please specify which task to delete (e.g., \x27delete task 3\x27)"

def msg_update_clarify_id : String :=
  "Please specify which task to update (e.g., \x27update task 3 to call mom\x27)"

def msg_update_clarify_title : String :=
  "Please specify what you want to update the task to."

def msg_not_found (task_id : Nat) : String :=
  "Task " ++ Nat.repr task_id ++ " not found or doesn\x27t belong to you."

def msg_already_completed (task_id : Nat) (title : String) : String :=
  "Task " ++ Nat.repr task_id ++ " \x27" ++ title ++ "\x27 is already completed!"

def msg_complete_ok (task_id : Nat) (title : String) : String :=
  "✅ Task " ++ Nat.repr task_id ++ " marked as complete!\n\n\x27" ++ title ++
    "\x27 is now done. Great job! 🎉"

def msg_delete_ok (task_id : Nat) (title : String) : String :=
  "🗑️ Task " ++ Nat.repr task_id ++ " \x27" ++ title ++ "\x27 has been deleted."

def msg_update_ok (task_id : Nat) (old_title new_title : String) : String :=
  "✏️ Task " ++ Nat.repr task_id ++ " updated!\n\nOld: \x27" ++ old_title ++
    "\x27\nNew: \x27" ++ new_title ++ "\x27"

def msg_no_tasks : String :=
  "You don\x27t have any tasks yet. Try adding one by saying \x27Add a task to...\x27"

/-- The help message of get_help_message, returned for unknown intents. -/
def help_message : String :=
  "I can help you manage your tasks! Try:\n\n• \"Add a task to buy groceries\"\n" ++
    "• \"Show me all my tasks\"  \n• \"Mark task 5 as complete\"\n• \"Delete task 3\"\n" ++
    "• \"Update task 2 to call mom tonight\"\n\nWhat would you like to do?"

/-- Python not task_id for an Optional int: true on None and on zero. -/
def idFalsy : Option Nat → Bool
  | none => true
  | some n => n == 0

/-- agent handle_add_task. -/
def handle_add_task (now : Nat) (store : TaskStore) (user_id task_title : String) :
    String × TaskStore :=
  if task_title == "" then (msg_add_clarify, store)
  else
    let cleaned := stripQuotes (pyStrip task_title)
    let (new_task, store1) := create_task now store user_id
      { title := cleaned, description := some "", completed := false }
    ("✅ Task added successfully!\n\nTask ID: " ++ Nat.repr new_task.id ++
      "\nTitle: " ++ new_task.title, store1)

/-- Zero-padded eight-digit rendering of a task id (Python format 08d). -/
def format_task_id (id : Nat) : String :=
  let s := Nat.repr id
  (⟨List.replicate (8 - s.length) '0'⟩ : String) ++ s

/-- agent format_pending_task. -/
def format_pending_task (fmtLong : Nat → String) (t : Task) : String :=
  let created := match t.created_at with
    | some ts => fmtLong ts
    | none => "N/A"
  let desc := match t.description with
    | some d => if pyStrip d != "" then "   📝 " ++ d ++ "\n" else ""
    | none => ""
  "✨ **" ++ t.title ++ "**\n" ++ desc ++
    "   🆔 **ID: " ++ format_task_id t.id ++ "**  |  📅 **" ++ created ++ "**\n\n"

/-- agent format_completed_task. -/
def format_completed_task (fmtShort : Nat → String) (t : Task) : String :=
  let created := match t.created_at with
    | some ts => fmtShort ts
    | none => "N/A"
  let done := match t.completed_at with
    | some ts => fmtShort ts
    | none => "N/A"
  let desc := match t.description with
    | some d => if pyStrip d != "" then "   📝 " ++ d ++ "\n" else ""
    | none => ""
  "✓ ~~" ++ t.title ++ "~~\n" ++ desc ++
    "   🆔 **ID: " ++ format_task_id t.id ++ "**  |  📅 **" ++ created ++
    "**  |  ✅ **Done: " ++ done ++ "**\n\n"

/-- Concatenation of the renderings of a list of tasks. -/
def joinMap (f : Task → String) (ts : List Task) : String :=
  ts.foldl (fun acc t => acc ++ f t) ""

/-- The trailing summary line of the listing. -/
def summary_line (total pending completed : Nat) : String :=
  "\n━━━━━━━━━━━━━━━━━\n📊 **SUMMARY**: " ++ Nat.repr total ++ " total • " ++
    Nat.repr pending ++ " pending • " ++ Nat.repr completed ++ " completed"

/-- agent build_task_list_response. -/
def build_task_list_response (fmtLong fmtShort : Nat → String)
    (pending completed : List Task) : String :=
  let response := "📋 **YOUR TASKS**\n\n"
  let response := if pending.isEmpty then response
    else response ++ "🔵 **PENDING TASKS**\n━━━━━━━━━━━━━━━━━\n\n" ++
      joinMap (format_pending_task fmtLong) pending
  let response := if completed.isEmpty then response
    else response ++ "\n✅ **COMPLETED TASKS**\n━━━━━━━━━━━━━━━━━\n\n" ++
      joinMap (format_completed_task fmtShort) completed
  response ++ summary_line (pending.length + completed.length)
    pending.length completed.length

/-- agent handle_list_tasks. -/
def handle_list_tasks (fmtLong fmtShort : Nat → String) (store : TaskStore)
    (user_id : String) : String :=
  let ts := get_tasks store.tasks user_id "all"
  if ts.isEmpty then msg_no_tasks
  else build_task_list_response fmtLong fmtShort
    (ts.filter (fun t => !t.completed)) (ts.filter (fun t => t.completed))

/-- agent handle_complete_task: clarification on a falsy id, owner-scoped
lookup, idempotent reply when already completed, otherwise an update with
the completed field alone. -/
def handle_complete_task (now : Nat) (store : TaskStore) (user_id : String)
    (task_id : Option Nat) : String × TaskStore :=
  if idFalsy task_id then (msg_complete_clarify, store)
  else
    let tid := task_id.getD 0
    match get_task store.tasks user_id tid with
    | none => (msg_not_found tid, store)
    | some task =>
      if task.completed then (msg_already_completed tid task.title, store)
      else
        let (r, tasks1) := update_task now store.tasks user_id tid
          { title := none, description := none, completed := some true }
        match r with
        | some updated => (msg_complete_ok tid updated.title, { store with tasks := tasks1 })
        | none =>
          ("Sorry, I couldn\x27t mark the task as complete. Error: " ++
            "\x27NoneType\x27 object has no attribute \x27title\x27",
            { store with tasks := tasks1 })

/-- agent handle_delete_task. -/
def handle_delete_task (store : TaskStore) (user_id : String) (task_id : Option Nat) :
    String × TaskStore :=
  if idFalsy task_id then (msg_delete_clarify, store)
  else
    let tid := task_id.getD 0
    match get_task store.tasks user_id tid with
    | none => (msg_not_found tid, store)
    | some task =>
      let (success, tasks1) := delete_task store.tasks user_id tid
      if success then (msg_delete_ok tid task.title, { store with tasks := tasks1 })
      else ("Failed to delete task " ++ Nat.repr tid ++ ".", { store with tasks := tasks1 })

/-- agent clean_task_title: whole-word removal of the command keywords and the
numeric id, then quote and whitespace stripping. -/
def clean_task_title (task_title : String) (task_id : Nat) : String :=
  let cleaned := ["update", "task", "to", Nat.repr task_id, "change", "edit", "modify"].foldl
    (fun acc w => removeWord w acc) task_title
  stripQuotes (pyStrip cleaned)

/-- agent handle_update_task: the sanitized title is applied with no emptiness
guard, exactly as in the source. -/
def handle_update_task (now : Nat) (store : TaskStore) (user_id : String)
    (task_id : Option Nat) (task_title : String) : String × TaskStore :=
  if idFalsy task_id then (msg_update_clarify_id, store)
  else if task_title == "" then (msg_update_clarify_title, store)
  else
    let tid := task_id.getD 0
    match get_task store.tasks user_id tid with
    | none => (msg_not_found tid, store)
    | some task =>
      let old_title := task.title
      let cleaned := clean_task_title task_title tid
      let (r, tasks1) := update_task now store.tasks user_id tid
        { title := some cleaned, description := none, completed := none }
      match r with
      | some updated =>
        (msg_update_ok tid old_title updated.title, { store with tasks := tasks1 })
      | none =>
        ("Sorry, I couldn\x27t update the task. Error: " ++
          "\x27NoneType\x27 object has no attribute \x27title\x27",
          { store with tasks := tasks1 })

/-- agent execute_intent: dispatch on the intent name; unmapped intents return
the help message with no tool call and no mutation. -/
def execute_intent (fmtLong fmtShort : Nat → String) (now : Nat) (store : TaskStore)
    (user_id : String) (p : ParsedIntent) : String × List String × TaskStore :=
  if p.intent == "add_task" then
    let (r, s) := handle_add_task now store user_id p.task_title
    (r, ["add_task"], s)
  else if p.intent == "list_tasks" then
    (handle_list_tasks fmtLong fmtShort store user_id, ["list_tasks"], store)
  else if p.intent == "complete_task" then
    let (r, s) := handle_complete_task now store user_id p.task_id
    (r, ["complete_task"], s)
  else if p.intent == "delete_task" then
    let (r, s) := handle_delete_task store user_id p.task_id
    (r, ["delete_task"], s)
  else if p.intent == "update_task" then
    let (r, s) := handle_update_task now store user_id p.task_id p.task_title
    (r, ["update_task"], s)
  else (help_message, [], store)

/-- The reply structure of the chat surface. -/
structure ChatResponse where
  conversation_id : String
  response : String
  tool_calls : List String
deriving Repr, DecidableEq

/-- agent process_message: parse, execute, and catch any escaped exception
into the apology reply. -/
def process_message (model : Option (Except String String)) (fmtLong fmtShort : Nat → String)
    (now : Nat) (store : TaskStore) (user_id message : String) :
    ChatResponse × TaskStore :=
  match get_gemini_intent model message with
  | Except.error e =>
    ({ conversation_id := "", response := "I\x27m sorry, I encountered an error: " ++ e,
       tool_calls := [] }, store)
  | Except.ok response =>
    let parsed := extract_intent_and_params response
    let (text, calls, store1) := execute_intent fmtLong fmtShort now store user_id parsed
    ({ conversation_id := "", response := text, tool_calls := calls }, store1)

/-! ## Conversation log and chat endpoint (src/api/chat.py) -/

/-- A conversation row. -/
structure Conversation where
  id : Nat
  user_id : String
  created_at : Option Nat
  updated_at : Option Nat
deriving Repr, DecidableEq

/-- A message row. -/
structure Message where
  id : Nat
  user_id : String
  conversation_id : Nat
  role : String
  content : String
  created_at : Option Nat
deriving Repr, DecidableEq

/-- The persistent state seen by the chat endpoint. -/
structure AppState where
  store : TaskStore
  conversations : List Conversation
  messages : List Message
  next_conv_id : Nat
  next_msg_id : Nat
deriving Repr, DecidableEq

/-- crud.create_conversation. -/
def create_conversation (now : Nat) (st : AppState) (user_id : String) :
    Conversation × AppState :=
  let c : Conversation :=
    { id := st.next_conv_id, user_id := user_id,
      created_at := some now, updated_at := some now }
  (c, { st with conversations := st.conversations ++ [c],
                next_conv_id := st.next_conv_id + 1 })

/-- crud.get_conversation: lookup by id alone, with no owner scoping. -/
def get_conversation (st : AppState) (conversation_id : Nat) : Option Conversation :=
  st.conversations.find? (fun c => c.id == conversation_id)

/-- crud.create_message. -/
def create_message (now : Nat) (st : AppState) (user_id : String)
    (conversation_id : Nat) (role content : String) : AppState :=
  let m : Message :=
    { id := st.next_msg_id, user_id := user_id, conversation_id := conversation_id,
      role := role, content := content, created_at := some now }
  { st with messages := st.messages ++ [m], next_msg_id := st.next_msg_id + 1 }

/-- An HTTP error response: status code and detail text. -/
structure HttpError where
  status : Nat
  detail : String
deriving Repr, DecidableEq

def msg_conv_not_found : String := "Conversation not found or does not belong to user"

/-- chat_endpoint.  The whole body sits in one try-block whose except-clause
re-raises every exception, the HTTPException of the not-found branch included,
as a 500 internal error; the state at the moment of the raise persists.
A missing or empty conversation id is falsy and creates a new conversation. -/
def chat_endpoint (model : Option (Except String String)) (fmtLong fmtShort : Nat → String)
    (now : Nat) (st : AppState) (user_id : String) (conversation_id : Option String)
    (message : String) : Except HttpError ChatResponse × AppState :=
  let resolved : Except String (String × Nat × AppState) :=
    match conversation_id with
    | none =>
      let (c, st1) := create_conversation now st user_id
      Except.ok (Nat.repr c.id, c.id, st1)
    | some cid =>
      if cid == "" then
        let (c, st1) := create_conversation now st user_id
        Except.ok (Nat.repr c.id, c.id, st1)
      else
        match pyInt cid with
        | none =>
          Except.error ("ValueError: invalid literal for int() with base 10: " ++ cid)
        | some n =>
          match get_conversation st n with
          | none => Except.error ("404: " ++ msg_conv_not_found)
          | some conv =>
            if conv.user_id != user_id then
              Except.error ("404: " ++ msg_conv_not_found)
            else Except.ok (cid, n, st)
  match resolved with
  | Except.error e =>
    (Except.error { status := 500, detail := "Error processing chat request: " ++ e }, st)
  | Except.ok (cidStr, cidNat, st1) =>
    let st2 := create_message now st1 user_id cidNat "user" message
    let (resp, store1) := process_message model fmtLong fmtShort now st2.store user_id message
    let st3 := { st2 with store := store1 }
    let st4 := create_message now st3 user_id cidNat "assistant" resp.response
    (Except.ok { resp with conversation_id := cidStr }, st4)

/-! ## REST mark-complete endpoint (src/api/tasks.py)

The route body calls crud.complete_task with three positional arguments while
the function declares four parameters, none defaulted.  Python binds
positional arguments to parameters in order and raises TypeError when a
parameter without a default stays unbound; the binding step is embedded so
the endpoint evaluates exactly as the interpreter would. -/

/-- A Python runtime value passed in the call. -/
inductive PyVal where
  | session : PyVal
  | str : String → PyVal
  | int : Nat → PyVal
  | bool : Bool → PyVal
deriving Repr, DecidableEq

/-- A Python parameter: name and optional default. -/
structure PyParam where
  name : String
  dflt : Option PyVal
deriving Repr, DecidableEq

/-- The parameter list of crud.complete_task: session, user_id, task_id,
completed, all without defaults. -/
def complete_task_params : List PyParam :=
  [{ name := "session", dflt := none }, { name := "user_id", dflt := none },
   { name := "task_id", dflt := none }, { name := "completed", dflt := none }]

/-- Positional-argument binding of a Python call: arguments fill parameters in
order, leftover parameters fall back to their defaults, and a parameter with
no value raises TypeError. -/
def bindCall : List PyParam → List PyVal → Except String (List (String × PyVal))
  | [], [] => Except.ok []
  | [], _ :: _ => Except.error "TypeError: too many positional arguments"
  | p :: ps, [] =>
    match p.dflt with
    | some v => (bindCall ps []).map (fun env => (p.name, v) :: env)
    | none =>
      Except.error ("TypeError: missing 1 required positional argument: " ++ p.name)
  | p :: ps, a :: args => (bindCall ps args).map (fun env => (p.name, a) :: env)

/-- api.tasks mark_complete: bind the three provided arguments against the
four parameters of complete_task, then run the bound call; an unbound call
raises TypeError out of the endpoint and nothing in the store changes. -/
def mark_complete (now : Nat) (tasks : List Task) (user_id : String) (task_id : Nat) :
    Except String Task × List Task :=
  match bindCall complete_task_params [PyVal.session, PyVal.str user_id, PyVal.int task_id] with
  | Except.error e => (Except.error e, tasks)
  | Except.ok env =>
    match env.lookup "completed" with
    | some (PyVal.bool c) =>
      let (r, tasks1) := complete_task now tasks user_id task_id c
      match r with
      | none =>
        (Except.error ("404: Task " ++ Nat.repr task_id ++
          " not found or does not belong to user"), tasks1)
      | some t => (Except.ok t, tasks1)
    | _ => (Except.error "TypeError: completed is not a bool", tasks)

/-! ## Shared lemmas -/

/-- A pending sample task used by several concrete evaluations. -/
def samplePending : Task :=
  { id := 1, user_id := "alice", title := "buy milk", description := none,
    completed := false, created_at := some 0, updated_at := some 0, completed_at := none }

/-- Saving a row that satisfies the owner-scoped predicate makes the next
owner-scoped lookup return it, provided the original lookup succeeded. -/
theorem findTask_saveTask (tasks : List Task) (user_id : String) (task_id : Nat)
    (u : Task) (hu : taskMatches user_id task_id u = true)
    (h : (findTask tasks user_id task_id).isSome = true) :
    findTask (saveTask user_id task_id u tasks) user_id task_id = some u := by
  induction tasks with
  | nil => simp [findTask, List.find?] at h
  | cons t rest ih =>
    by_cases hm : taskMatches user_id task_id t = true
    · simp [saveTask, hm, findTask, List.find?, hu]
    · have hm' : taskMatches user_id task_id t = false := by
        revert hm; cases taskMatches user_id task_id t <;> simp
      have h' : (findTask rest user_id task_id).isSome = true := by
        simpa [findTask, List.find?, hm'] using h
      simpa [saveTask, hm', findTask, List.find?] using ih h'

/-- A list splits into the rows failing a predicate and those satisfying it. -/
theorem length_filter_not_add (l : List Task) (p : Task → Bool) :
    l.length = (l.filter (fun t => !p t)).length + (l.filter p).length := by
  induction l with
  | nil => rfl
  | cons t rest ih =>
    cases h : p t <;> simp [List.filter_cons, h] <;> omega

/-! ## Claims -/

/-- C1: the spec invariant that completed_at is non-null exactly when completed
is true is violated by the code: creating a pending task and completing it
through the chat-driven complete handler (which routes through update_task)
leaves completed true while completed_at stays null, because update_task
assigns the flag before testing for the false-to-true transition. -/
theorem chat_complete_violates_completed_at_invariant :
    (handle_complete_task 5
        (create_task 0 { tasks := [], next_id := 1 } "alice"
          { title := "buy milk", description := some "", completed := false }).2
        "alice" (some 1)).2.tasks =
      [{ samplePending with description := some "", completed := true,
                            updated_at := some 5, completed_at := none }] ∧
    ∃ t ∈ (handle_complete_task 5
        (create_task 0 { tasks := [], next_id := 1 } "alice"
          { title := "buy milk", description := some "", completed := false }).2
        "alice" (some 1)).2.tasks,
      t.completed = true ∧ t.completed_at = none := by
  exact ⟨rfl, by decide⟩

/-- C2: the partial-update contract fails on the false-to-true transition:
update_task with a payload setting completed to true on a stored pending task
leaves completed_at null instead of stamping the current time, because the
flag is assigned to the row before the transition test reads it.  The other
parts of the update are visible in the resulting row: the absent fields are
untouched and updated_at carries the call instant. -/
theorem update_task_true_transition_never_stamps :
    update_task 5 [samplePending] "alice" 1
        { title := none, description := none, completed := some true } =
      (some { samplePending with completed := true, updated_at := some 5,
                                  completed_at := none },
       [{ samplePending with completed := true, updated_at := some 5,
                              completed_at := none }]) := by
  rfl

/-- C3: every owner-scoped operation invoked on a task id that exists but is
owned by someone else returns the same not-found result as on an absent id,
and leaves the stored list untouched. -/
theorem cross_owner_ops_behave_as_missing
    (tasks : List Task) (ownerA ownerB : String) (tid : Nat) (d : TaskUpdate)
    (c : Bool) (now : Nat)
    (_hexists : ∃ t ∈ tasks, t.id = tid ∧ t.user_id = ownerB)
    (howner : ∀ t ∈ tasks, t.id = tid → t.user_id = ownerB)
    (hne : ownerA ≠ ownerB) :
    get_task tasks ownerA tid = none ∧
    update_task now tasks ownerA tid d = (none, tasks) ∧
    delete_task tasks ownerA tid = (false, tasks) ∧
    complete_task now tasks ownerA tid c = (none, tasks) := by
  have hfind : findTask tasks ownerA tid = none := by
    apply List.find?_eq_none.mpr
    intro t ht hmatch
    have h2 : t.id = tid ∧ t.user_id = ownerA := by
      simpa [taskMatches] using hmatch
    exact hne (h2.2 ▸ (howner t ht h2.1) ▸ rfl)
  refine ⟨hfind, ?_, ?_, ?_⟩
  · simp [update_task, hfind]
  · simp [delete_task, hfind]
  · simp [complete_task, hfind]

/-- Witness for C3 at a concrete store: task 7 belongs to bob, so alice sees
not-found everywhere and nothing changes. -/
theorem cross_owner_ops_behave_as_missing_witness :
    get_task [{ samplePending with id := 7, user_id := "bob" }] "alice" 7 = none ∧
    update_task 3 [{ samplePending with id := 7, user_id := "bob" }] "alice" 7
        { title := none, description := none, completed := none } =
      (none, [{ samplePending with id := 7, user_id := "bob" }]) ∧
    delete_task [{ samplePending with id := 7, user_id := "bob" }] "alice" 7 =
      (false, [{ samplePending with id := 7, user_id := "bob" }]) ∧
    complete_task 3 [{ samplePending with id := 7, user_id := "bob" }] "alice" 7 true =
      (none, [{ samplePending with id := 7, user_id := "bob" }]) :=
  cross_owner_ops_behave_as_missing [{ samplePending with id := 7, user_id := "bob" }]
    "alice" "bob" 7 { title := none, description := none, completed := none } true 3
    (by decide) (by decide) (by decide)

/-- C4: the REST mark-complete endpoint passes three positional arguments to
crud.complete_task, which requires four; Python argument binding raises
TypeError on every invocation and the stored tasks are never touched. -/
theorem mark_complete_always_raises_type_error (now : Nat) (tasks : List Task)
    (user_id : String) (task_id : Nat) :
    mark_complete now tasks user_id task_id =
      (Except.error "TypeError: missing 1 required positional argument: completed",
       tasks) := by
  rfl

/-- Updating a found row with the completed-only payload set to true flips the
flag and refreshes updated_at, leaving completed_at untouched (the dead
transition branch). -/
theorem update_task_complete_true_eq (now : Nat) (tasks : List Task) (uid : String)
    (tid : Nat) (t : Task) (hfind : findTask tasks uid tid = some t) :
    update_task now tasks uid tid
        { title := none, description := none, completed := some true } =
      (some { t with completed := true, updated_at := some now },
       saveTask uid tid { t with completed := true, updated_at := some now } tasks) := by
  unfold update_task
  rw [hfind]
  rfl

/-- The chat complete handler on a found pending task returns the confirmation
and writes back the row with the flag set. -/
theorem handle_complete_pending_eq (now : Nat) (store : TaskStore) (uid : String)
    (tid : Nat) (t : Task) (htid : (tid == 0) = false)
    (hfind : findTask store.tasks uid tid = some t) (hpend : t.completed = false) :
    handle_complete_task now store uid (some tid) =
      (msg_complete_ok tid t.title,
       { store with tasks := saveTask uid tid
                              { t with completed := true, updated_at := some now }
                              store.tasks }) := by
  unfold handle_complete_task
  simp only [idFalsy, htid, Bool.false_eq_true, if_false, Option.getD_some, get_task]
  rw [hfind]
  simp only [hpend, Bool.false_eq_true, if_false,
    update_task_complete_true_eq now store.tasks uid tid t hfind]

/-- C5: running the chat CompleteTask handler a second time on a task the
first call just completed returns the already-completed message and leaves
the store exactly as the first call left it. -/
theorem complete_task_second_call_idempotent
    (now1 now2 : Nat) (store : TaskStore) (uid : String) (tid : Nat) (t : Task)
    (htid : tid ≠ 0)
    (hfind : findTask store.tasks uid tid = some t)
    (hpend : t.completed = false) :
    (handle_complete_task now2 (handle_complete_task now1 store uid (some tid)).2
        uid (some tid)).1 = msg_already_completed tid t.title ∧
    (handle_complete_task now2 (handle_complete_task now1 store uid (some tid)).2
        uid (some tid)).2 = (handle_complete_task now1 store uid (some tid)).2 := by
  have h0 : (tid == 0) = false := beq_eq_false_iff_ne.mpr htid
  have hmatch : taskMatches uid tid t = true := List.find?_some hfind
  have hfirst := handle_complete_pending_eq now1 store uid tid t h0 hfind hpend
  rw [hfirst]
  have hsave : findTask
      (saveTask uid tid { t with completed := true, updated_at := some now1 } store.tasks)
      uid tid = some { t with completed := true, updated_at := some now1 } :=
    findTask_saveTask store.tasks uid tid _ hmatch (by rw [hfind]; rfl)
  have hsecond : handle_complete_task now2
      { store with tasks := saveTask uid tid
                              { t with completed := true, updated_at := some now1 }
                              store.tasks }
      uid (some tid) =
      (msg_already_completed tid t.title,
       { store with tasks := saveTask uid tid
                              { t with completed := true, updated_at := some now1 }
                              store.tasks }) := by
    unfold handle_complete_task
    simp only [idFalsy, h0, Bool.false_eq_true, if_false, Option.getD_some, get_task]
    rw [hsave]
    rfl
  rw [hsecond]
  exact ⟨rfl, rfl⟩

/-- Witness for C5: completing task 2 twice; the second call answers with the
already-completed message and changes nothing. -/
theorem complete_task_second_call_idempotent_witness :
    (handle_complete_task 6 (handle_complete_task 5
        { tasks := [{ samplePending with id := 2 }], next_id := 3 } "alice" (some 2)).2
        "alice" (some 2)).1 = msg_already_completed 2 "buy milk" ∧
    (handle_complete_task 6 (handle_complete_task 5
        { tasks := [{ samplePending with id := 2 }], next_id := 3 } "alice" (some 2)).2
        "alice" (some 2)).2 = (handle_complete_task 5
        { tasks := [{ samplePending with id := 2 }], next_id := 3 } "alice" (some 2)).2 :=
  complete_task_second_call_idempotent 5 6
    { tasks := [{ samplePending with id := 2 }], next_id := 3 } "alice" 2
    { samplePending with id := 2 } (by decide) rfl rfl

/-- C6: with the language model unavailable, the fallback cascade maps each of
the test-scenario inputs of the spec to the stated command: the grocery
phrase to add_task with the title after the separator, the mark phrase to
complete_task with id 5, the delete phrase to delete_task with id 3, the
update phrase to update_task with id 2 and the trailing title, and hello to
the unknown command, which the executor answers with the help message, no
tool call and no change to the store. -/
theorem fallback_scenarios_match_spec :
    parse_message_fallback "add a task to buy groceries" =
      Except.ok { emptyParsed with intent := "add_task", task_title := "buy groceries" } ∧
    parse_message_fallback "mark task 5 as complete" =
      Except.ok { emptyParsed with intent := "complete_task", task_id := some 5 } ∧
    parse_message_fallback "delete task 3" =
      Except.ok { emptyParsed with intent := "delete_task", task_id := some 3 } ∧
    parse_message_fallback "update task 2 to call mom tonight" =
      Except.ok { emptyParsed with intent := "update_task", task_id := some 2,
                                   task_title := "call mom tonight" } ∧
    parse_message_fallback "hello" = Except.ok emptyParsed ∧
    execute_intent (fun _ => "") (fun _ => "") 0 { tasks := [], next_id := 1 } "u"
        emptyParsed =
      (help_message, [], { tasks := [], next_id := 1 }) := by
  exact ⟨rfl, rfl, rfl, rfl, rfl, rfl⟩

/-- Counterexample to C7: the parser does raise.  On the message Change 1 To x
with the model unavailable, the lower-cased text contains the separator but
the raw text does not, so the fallback splits on a separator that is absent
and the index access raises IndexError out of the parser. -/
theorem fallback_mixed_case_to_raises :
    get_gemini_intent none "Change 1 To x" =
      Except.error "IndexError: list index out of range" := by
  rfl

/-- An intent line the line parser recognises: after stripping, it starts with
the INTENT prefix and the remainder contains one of the mapping keywords. -/
def recognizable_intent_line (line : String) : Bool :=
  let l := pyStrip line
  strStarts l "INTENT:" &&
    (intent_mapping.find? (fun kv =>
      strContains (pyUpper (pyStrip (pyRemoveAll "INTENT:" l))) kv.fst)).isSome

/-- A list containing a pattern always splits at its first occurrence. -/
theorem splitAfterFirst_isSome_of_contains (sub s : List Char)
    (h : listContainsSub sub s = true) : (splitAfterFirst sub s).isSome = true := by
  induction s with
  | nil =>
    have hsub : sub.isEmpty = true := by simpa [listContainsSub] using h
    have : sub = [] := by simpa [List.isEmpty_iff] using hsub
    simp [splitAfterFirst, this]
  | cons c rest ih =>
    by_cases hp : sub.isPrefixOf (c :: rest) = true
    · simp [splitAfterFirst, hp]
    · have hp' : sub.isPrefixOf (c :: rest) = false := by
        revert hp; cases sub.isPrefixOf (c :: rest) <;> simp
      have h' : listContainsSub sub rest = true := by
        simpa [listContainsSub, hp'] using h
      simpa [splitAfterFirst, hp'] using ih h'

/-- A line the parser does not recognise as an intent line leaves the intent
field of the result unchanged. -/
theorem parse_intent_line_keeps_intent (line : String) (r : ParsedIntent)
    (h : recognizable_intent_line line = false) :
    (parse_intent_line line r).intent = r.intent := by
  unfold parse_intent_line
  unfold recognizable_intent_line at h
  by_cases hs : strStarts (pyStrip line) "INTENT:" = true
  · have hfind : (intent_mapping.find? (fun kv =>
        strContains (pyUpper (pyStrip (pyRemoveAll "INTENT:" (pyStrip line)))) kv.fst)) =
        none := by
      simp only [hs, Bool.true_and] at h
      simpa [Option.isSome_iff_exists] using h
    simp [hs, hfind]
  · have hs' : strStarts (pyStrip line) "INTENT:" = false := by
      revert hs; cases strStarts (pyStrip line) "INTENT:" <;> simp
    simp only [hs', Bool.false_eq_true, if_false]
    repeat' split
    all_goals rfl

/-- Folding the line parser over lines with no recognisable intent line leaves
the intent field unchanged. -/
theorem foldl_keeps_intent (ls : List String) (r : ParsedIntent)
    (h : ∀ l ∈ ls, recognizable_intent_line l = false) :
    (ls.foldl (fun r l => parse_intent_line l r) r).intent = r.intent := by
  induction ls generalizing r with
  | nil => rfl
  | cons l rest ih =>
    rw [List.foldl_cons, ih _ (fun x hx => h x (List.mem_cons_of_mem l hx)),
      parse_intent_line_keeps_intent l r (h l (List.mem_cons_self l rest))]

/-- C7 amended: exceptions of the model call degrade silently to the fallback,
and the fallback returns a command without raising for every message whose raw
text contains the to-separator wherever its lower-cased text does (the
counterexample shows the restriction is necessary); a model response with no
recognisable INTENT line leaves the command unknown. -/
theorem intent_parser_never_raises_amended (message e response : String)
    (hto : strContains (pyLower message) " to " = true →
      strContains message " to " = true)
    (hnl : ∀ l ∈ splitLines (pyStrip response), recognizable_intent_line l = false) :
    (∃ r, get_gemini_intent none message = Except.ok r) ∧
    get_gemini_intent (some (Except.error e)) message = fallback_intent message ∧
    (extract_intent_and_params response).intent = "unknown" := by
  refine ⟨?_, rfl, ?_⟩
  · show ∃ r, fallback_intent message = Except.ok r
    unfold fallback_intent
    dsimp only
    split
    · unfold detect_update_intent extract_update_title
      by_cases hc : strContains (pyLower message) " to " = true
      · obtain ⟨rest, hrest⟩ := Option.isSome_iff_exists.mp
          (splitAfterFirst_isSome_of_contains " to ".data message.data (hto hc))
        simp [hc, hrest]
        exact ⟨_, rfl⟩
      · have hc' : strContains (pyLower message) " to " = false := by
          revert hc; cases strContains (pyLower message) " to " <;> simp
        by_cases hid : ((firstDigitRun message).getD "" != "") = true
        · simp [hc', hid]
          exact ⟨_, rfl⟩
        · have hid' : ((firstDigitRun message).getD "" != "") = false := by
            revert hid; cases (firstDigitRun message).getD "" != "" <;> simp
          simp [hc', hid']
          exact ⟨_, rfl⟩
    · split
      · exact ⟨_, rfl⟩
      · split
        · exact ⟨_, rfl⟩
        · split
          · unfold detect_add_intent
            by_cases hc : strContains (pyLower message) " to " = true
            · obtain ⟨rest, hrest⟩ := Option.isSome_iff_exists.mp
                (splitAfterFirst_isSome_of_contains " to ".data message.data (hto hc))
              simp [hc, hrest]
            · have hc' : strContains (pyLower message) " to " = false := by
                revert hc; cases strContains (pyLower message) " to " <;> simp
              simp [hc']
          · split
            · exact ⟨_, rfl⟩
            · exact ⟨_, rfl⟩
  · exact foldl_keeps_intent _ _ hnl

/-- Witness for C7 amended, at the message hello, a failing model call and a
response with no INTENT line. -/
theorem intent_parser_never_raises_witness :
    (∃ r, get_gemini_intent none "hello" = Except.ok r) ∧
    get_gemini_intent (some (Except.error "boom")) "hello" = fallback_intent "hello" ∧
    (extract_intent_and_params "just some words").intent = "unknown" :=
  intent_parser_never_raises_amended "hello" "boom" "just some words"
    (by decide) (by decide)

/-- C8: when a non-empty update title sanitizes to the empty string after
keyword stripping, the handler applies the update anyway against an existing
owned task, silently writing the empty title into the store and confirming
with an empty new-title quote. -/
theorem update_blank_title_applied
    (now : Nat) (store : TaskStore) (uid : String) (tid : Nat) (title : String)
    (t : Task)
    (htid : tid ≠ 0)
    (htitle : title ≠ "")
    (hclean : clean_task_title title tid = "")
    (hfind : findTask store.tasks uid tid = some t) :
    handle_update_task now store uid (some tid) title =
      (msg_update_ok tid t.title "",
       { store with tasks := saveTask uid tid
                              { t with title := "", updated_at := some now }
                              store.tasks }) := by
  have h0 : (tid == 0) = false := beq_eq_false_iff_ne.mpr htid
  have ht : (title == "") = false := beq_eq_false_iff_ne.mpr htitle
  unfold handle_update_task
  simp only [idFalsy, h0, Bool.false_eq_true, if_false, ht, Option.getD_some, get_task]
  rw [hfind]
  simp only [hclean]
  unfold update_task
  rw [hfind]

/-- Witness for C8: the message title "update task 3" on task 3 sanitizes to
nothing and blanks the stored title. -/
theorem update_blank_title_applied_witness :
    handle_update_task 7
        { tasks := [{ samplePending with id := 3, user_id := "u", title := "old" }],
          next_id := 4 } "u" (some 3) "update task 3" =
      (msg_update_ok 3 "old" "",
       { tasks := [{ samplePending with id := 3, user_id := "u", title := "",
                                        updated_at := some 7 }],
         next_id := 4 }) :=
  update_blank_title_applied 7
    { tasks := [{ samplePending with id := 3, user_id := "u", title := "old" }],
      next_id := 4 } "u" 3 "update task 3"
    { samplePending with id := 3, user_id := "u", title := "old" }
    (by decide) (by decide) (by decide) rfl

/-- C9: when a conversation id is supplied that does not resolve to a
conversation of the caller, the endpoint does construct the not-found
rejection, but the catch-all except clause converts it into a 500 internal
error; no message is appended in either case.  The missing-conversation and
foreign-owner cases behave identically. -/
theorem chat_unknown_conversation_internal_error :
    chat_endpoint none (fun _ => "") (fun _ => "") 0
        { store := { tasks := [], next_id := 1 }, conversations := [],
          messages := [], next_conv_id := 1, next_msg_id := 1 }
        "alice" (some "5") "hi" =
      (Except.error (⟨500,
         "Error processing chat request: 404: " ++ msg_conv_not_found⟩ : HttpError),
       { store := { tasks := [], next_id := 1 }, conversations := [],
         messages := [], next_conv_id := 1, next_msg_id := 1 }) ∧
    chat_endpoint none (fun _ => "") (fun _ => "") 0
        { store := { tasks := [], next_id := 1 },
          conversations := [{ id := 5, user_id := "bob",
                              created_at := some 0, updated_at := some 0 }],
          messages := [], next_conv_id := 6, next_msg_id := 1 }
        "alice" (some "5") "hi" =
      (Except.error (⟨500,
         "Error processing chat request: 404: " ++ msg_conv_not_found⟩ : HttpError),
       { store := { tasks := [], next_id := 1 },
         conversations := [{ id := 5, user_id := "bob",
                             created_at := some 0, updated_at := some 0 }],
         messages := [], next_conv_id := 6, next_msg_id := 1 }) := by
  exact ⟨rfl, rfl⟩

/-- C10: listing over an empty owned set yields the distinct no-tasks message
rather than the empty-listing rendering; over a non-empty set the reply is the
built listing whose pending block precedes the completed block and whose
summary counts are the cardinalities of the owner partitions; task ids render
zero-padded to eight digits. -/
theorem list_tasks_rendering (fmtLong fmtShort : Nat → String) (store : TaskStore)
    (uid : String) :
    (get_tasks store.tasks uid "all" = [] →
      handle_list_tasks fmtLong fmtShort store uid = msg_no_tasks) ∧
    msg_no_tasks ≠ build_task_list_response fmtLong fmtShort [] [] ∧
    (get_tasks store.tasks uid "all" ≠ [] →
      handle_list_tasks fmtLong fmtShort store uid =
        build_task_list_response fmtLong fmtShort
          ((get_tasks store.tasks uid "all").filter (fun t => !t.completed))
          ((get_tasks store.tasks uid "all").filter (fun t => t.completed))) ∧
    (∀ pending completed : List Task,
      ∃ a b : String, build_task_list_response fmtLong fmtShort pending completed =
        a ++ joinMap (format_pending_task fmtLong) pending ++ b ++
          joinMap (format_completed_task fmtShort) completed ++
          summary_line (pending.length + completed.length) pending.length
            completed.length) ∧
    (get_tasks store.tasks uid "all").length =
      ((get_tasks store.tasks uid "all").filter (fun t => !t.completed)).length +
        ((get_tasks store.tasks uid "all").filter (fun t => t.completed)).length ∧
    (∀ n : Nat, n < 100000000 → (format_task_id n).length = 8) := by
  refine ⟨?_, ?_, ?_, ?_, ?_, ?_⟩
  · intro h
    simp [handle_list_tasks, h]
  · intro h
    have hb : build_task_list_response fmtLong fmtShort [] [] =
        "📋 **YOUR TASKS**\n\n" ++ summary_line 0 0 0 := rfl
    rw [hb] at h
    exact absurd h (by decide)
  · intro h
    have he : (get_tasks store.tasks uid "all").isEmpty = false :=
      List.isEmpty_eq_false.mpr h
    simp [handle_list_tasks, he]
  · intro pending completed
    refine ⟨"📋 **YOUR TASKS**\n\n" ++
      (if pending.isEmpty then "" else "🔵 **PENDING TASKS**\n━━━━━━━━━━━━━━━━━\n\n"),
      (if completed.isEmpty then ""
       else "\n✅ **COMPLETED TASKS**\n━━━━━━━━━━━━━━━━━\n\n"), ?_⟩
    rcases eq_or_ne pending [] with hp | hp <;>
      rcases eq_or_ne completed [] with hc | hc
    · subst hp; subst hc
      simp [build_task_list_response, joinMap, String.append_empty]
    · subst hp
      have hce := List.isEmpty_eq_false.mpr hc
      simp [build_task_list_response, hce, joinMap, String.append_empty,
        String.append_assoc]
    · subst hc
      have hpe := List.isEmpty_eq_false.mpr hp
      simp [build_task_list_response, hpe, joinMap, String.append_empty,
        String.append_assoc]
    · have hpe := List.isEmpty_eq_false.mpr hp
      have hce := List.isEmpty_eq_false.mpr hc
      simp [build_task_list_response, hpe, hce, joinMap, String.append_empty,
        String.append_assoc]
  · exact length_filter_not_add (get_tasks store.tasks uid "all") (fun t => t.completed)
  · intro n hn
    have hrepr : (Nat.repr n).length ≤ 8 :=
      Nat.repr_length n 8 (by norm_num) (by norm_num [hn])
    unfold format_task_id
    rw [String.length_append, String.length_mk, List.length_replicate]
    omega

/-- The concrete store used by the C10 witness: one pending and one completed
task for alice. -/
def listingStore : TaskStore :=
  { tasks := [samplePending,
      { samplePending with id := 2, completed := true, completed_at := some 3 }],
    next_id := 5 }

/-- Witness for C10 at a concrete store with one pending and one completed
task, and the eight-digit padding at id 5. -/
theorem list_tasks_rendering_witness :
    handle_list_tasks Nat.repr Nat.repr listingStore "alice" =
      build_task_list_response Nat.repr Nat.repr
        ((get_tasks listingStore.tasks "alice" "all").filter (fun t => !t.completed))
        ((get_tasks listingStore.tasks "alice" "all").filter (fun t => t.completed)) ∧
    (format_task_id 5).length = 8 :=
  ⟨(list_tasks_rendering Nat.repr Nat.repr listingStore "alice").2.2.1 (by decide),
   (list_tasks_rendering Nat.repr Nat.repr listingStore "alice").2.2.2.2.2 5 (by decide)⟩

end TodoBackend
